import Mathlib

/-!
Shallow embedding of the return-calculation engine of the wheel-app
repository (src/src/calculator.py, class ReturnCalculator), together with
theorems checking the natural-language specification against it.

Modelling conventions:
* Python floats are modelled as real numbers; Python ints as integers.
* Python float division raises ZeroDivisionError on a zero denominator,
  so every division of the source is modelled by pyDiv, returning in the
  Except monad; a function that can raise returns Except CalcError.
* The Python float power operator on a positive base agrees with the real
  power Real.rpow, which is what the carrier uses for the annualization
  formula.
* scipy.stats.norm.cdf is an external library function; it enters
  calculate_probability_of_profit as an explicit function parameter.
-/

namespace WheelApp

/-- The one kind of exception the calculator code can raise:
Python ZeroDivisionError. -/
inductive CalcError where
  | zeroDivision
deriving DecidableEq

/-- Python float division: raises ZeroDivisionError when the denominator
is zero, otherwise returns the quotient. -/
noncomputable def pyDiv (a b : ℝ) : Except CalcError ℝ :=
  if b = 0 then Except.error CalcError.zeroDivision else Except.ok (a / b)

/-- Result dictionary of calculate_put_return. -/
structure PutReturn where
  capital_required : ℝ
  premium_received : ℝ
  return_pct : ℝ
  annualized_return : ℝ
  breakeven_price : ℝ
  downside_protection_pct : ℝ
  days_to_expiration : ℤ

/-- Result dictionary of calculate_call_return. -/
structure CallReturn where
  capital_invested : ℝ
  premium_received : ℝ
  potential_capital_gain : ℝ
  total_return : ℝ
  premium_return_pct : ℝ
  total_return_pct : ℝ
  annualized_return : ℝ
  upside_capture_pct : ℝ
  max_profit_price : ℝ
  days_to_expiration : ℤ

/-- Result dictionary of calculate_wheel_cycle_return; call_phase is None
in the put-only branch. -/
structure WheelCycleReturn where
  put_phase : PutReturn
  call_phase : Option CallReturn
  total_premium : ℝ
  total_return_pct : ℝ
  annualized_cycle_return : ℝ
  total_days : ℤ
  capital_required : ℝ

/-- ReturnCalculator.calculate_put_return (calculator.py lines 24-75). -/
noncomputable def calculate_put_return (stock_price strike_price premium : ℝ)
    (days_to_expiration : ℤ) (contract_size : ℤ := 100) :
    Except CalcError PutReturn := do
  let capital_required := strike_price * (contract_size : ℝ)
  let total_premium := premium * (contract_size : ℝ)
  let return_pct := (← pyDiv total_premium capital_required) * 100
  let annualized_return :=
    if 0 < days_to_expiration then
      let periods_per_year := (365 : ℝ) / (days_to_expiration : ℝ)
      ((1 + return_pct / 100) ^ periods_per_year - 1) * 100
    else (0 : ℝ)
  let breakeven := strike_price - premium
  let downside_protection_pct := (← pyDiv premium stock_price) * 100
  return {
    capital_required := capital_required
    premium_received := total_premium
    return_pct := return_pct
    annualized_return := annualized_return
    breakeven_price := breakeven
    downside_protection_pct := downside_protection_pct
    days_to_expiration := days_to_expiration }

/-- ReturnCalculator.calculate_call_return (calculator.py lines 77-141). -/
noncomputable def calculate_call_return (stock_price strike_price premium cost_basis : ℝ)
    (days_to_expiration : ℤ) (contract_size : ℤ := 100) :
    Except CalcError CallReturn := do
  let capital_invested := cost_basis * (contract_size : ℝ)
  let total_premium := premium * (contract_size : ℝ)
  let premium_return_pct := (← pyDiv total_premium capital_invested) * 100
  let capital_gain :=
    if strike_price > cost_basis then (strike_price - cost_basis) * (contract_size : ℝ)
    else (0 : ℝ)
  let total_return :=
    if strike_price > cost_basis then total_premium + capital_gain
    else total_premium
  let total_return_pct := (← pyDiv total_return capital_invested) * 100
  let annualized_return :=
    if 0 < days_to_expiration then
      let periods_per_year := (365 : ℝ) / (days_to_expiration : ℝ)
      ((1 + total_return_pct / 100) ^ periods_per_year - 1) * 100
    else (0 : ℝ)
  let max_profit_price := strike_price + premium
  let upside_capture_pct := (← pyDiv (max_profit_price - stock_price) stock_price) * 100
  return {
    capital_invested := capital_invested
    premium_received := total_premium
    potential_capital_gain := capital_gain
    total_return := total_return
    premium_return_pct := premium_return_pct
    total_return_pct := total_return_pct
    annualized_return := annualized_return
    upside_capture_pct := upside_capture_pct
    max_profit_price := max_profit_price
    days_to_expiration := days_to_expiration }

/-- ReturnCalculator.calculate_wheel_cycle_return (calculator.py lines
143-220). -/
noncomputable def calculate_wheel_cycle_return
    (stock_price put_strike put_premium call_strike call_premium : ℝ)
    (put_dte call_dte : ℤ) (assignment_assumed : Bool := true) :
    Except CalcError WheelCycleReturn := do
  let put_returns ← calculate_put_return stock_price put_strike put_premium put_dte
  if assignment_assumed then
    let cost_basis := put_strike - put_premium
    let call_returns ← calculate_call_return put_strike call_strike call_premium
      cost_basis call_dte
    let total_premium := put_returns.premium_received + call_returns.premium_received
    let total_days := put_dte + call_dte
    let capital_required := put_strike * 100
    let total_return_pct := (← pyDiv total_premium capital_required) * 100
    let annualized_cycle_return :=
      if 0 < total_days then
        let periods_per_year := (365 : ℝ) / (total_days : ℝ)
        ((1 + total_return_pct / 100) ^ periods_per_year - 1) * 100
      else (0 : ℝ)
    return {
      put_phase := put_returns
      call_phase := some call_returns
      total_premium := total_premium
      total_return_pct := total_return_pct
      annualized_cycle_return := annualized_cycle_return
      total_days := total_days
      capital_required := capital_required }
  else
    return {
      put_phase := put_returns
      call_phase := none
      total_premium := put_returns.premium_received
      total_return_pct := put_returns.return_pct
      annualized_cycle_return := put_returns.annualized_return
      total_days := put_dte
      capital_required := put_returns.capital_required }

/-- ReturnCalculator.calculate_probability_of_profit (calculator.py lines
244-279); normCdf stands for the external scipy.stats.norm.cdf. -/
noncomputable def calculate_probability_of_profit (normCdf : ℝ → ℝ)
    (stock_price breakeven_price implied_volatility : ℝ)
    (days_to_expiration : ℤ) : ℝ :=
  if days_to_expiration ≤ 0 then
    if stock_price ≥ breakeven_price then 1 else 0
  else
    let time_fraction := (days_to_expiration : ℝ) / 365
    let expected_move := stock_price * implied_volatility * Real.sqrt time_fraction
    let z_score :=
      if expected_move > 0 then (stock_price - breakeven_price) / expected_move else 0
    normCdf z_score

theorem pyDiv_ok (a b : ℝ) (h : b ≠ 0) : pyDiv a b = Except.ok (a / b) := by
  simp [pyDiv, h]

theorem pyDiv_zero (a : ℝ) : pyDiv a 0 = Except.error CalcError.zeroDivision := by
  simp [pyDiv]

/-- The record calculate_put_return produces on its success path (proved
below: this is its value whenever it returns rather than raises). -/
noncomputable def putOkRecord (sp k prem : ℝ) (d cs : ℤ) : PutReturn where
  capital_required := k * (cs : ℝ)
  premium_received := prem * (cs : ℝ)
  return_pct := prem * (cs : ℝ) / (k * (cs : ℝ)) * 100
  annualized_return :=
    if 0 < d then
      ((1 + prem * (cs : ℝ) / (k * (cs : ℝ))) ^ ((365 : ℝ) / (d : ℝ)) - 1) * 100
    else 0
  breakeven_price := k - prem
  downside_protection_pct := prem / sp * 100
  days_to_expiration := d

/-- The record calculate_call_return produces on its success path. -/
noncomputable def callOkRecord (sp k prem cb : ℝ) (d cs : ℤ) : CallReturn where
  capital_invested := cb * (cs : ℝ)
  premium_received := prem * (cs : ℝ)
  potential_capital_gain := if cb < k then (k - cb) * (cs : ℝ) else 0
  total_return :=
    if cb < k then prem * (cs : ℝ) + (k - cb) * (cs : ℝ) else prem * (cs : ℝ)
  premium_return_pct := prem * (cs : ℝ) / (cb * (cs : ℝ)) * 100
  total_return_pct :=
    (if cb < k then prem * (cs : ℝ) + (k - cb) * (cs : ℝ) else prem * (cs : ℝ))
      / (cb * (cs : ℝ)) * 100
  annualized_return :=
    if 0 < d then
      ((1 + (if cb < k then prem * (cs : ℝ) + (k - cb) * (cs : ℝ) else prem * (cs : ℝ))
          / (cb * (cs : ℝ))) ^ ((365 : ℝ) / (d : ℝ)) - 1) * 100
    else 0
  upside_capture_pct := (k + prem - sp) / sp * 100
  max_profit_price := k + prem
  days_to_expiration := d

/-- Success characterization of calculate_put_return: when neither
denominator is zero, it returns putOkRecord. -/
theorem calculate_put_return_ok (sp k prem : ℝ) (d cs : ℤ)
    (h1 : k * (cs : ℝ) ≠ 0) (h2 : sp ≠ 0) :
    calculate_put_return sp k prem d cs = Except.ok (putOkRecord sp k prem d cs) := by
  simp [calculate_put_return, putOkRecord, pyDiv, h1, h2,
    Bind.bind, Except.bind, Pure.pure, Except.pure]

/-- calculate_put_return raises ZeroDivisionError when the capital
denominator strike_price * contract_size is zero. -/
theorem calculate_put_return_err_capital (sp k prem : ℝ) (d cs : ℤ)
    (h1 : k * (cs : ℝ) = 0) :
    calculate_put_return sp k prem d cs = Except.error CalcError.zeroDivision := by
  simp [calculate_put_return, pyDiv, h1, Bind.bind, Except.bind]

/-- calculate_put_return raises ZeroDivisionError when stock_price is
zero (the downside-protection division). -/
theorem calculate_put_return_err_stock (sp k prem : ℝ) (d cs : ℤ)
    (h2 : sp = 0) :
    calculate_put_return sp k prem d cs = Except.error CalcError.zeroDivision := by
  by_cases h1 : k * (cs : ℝ) = 0 <;>
    simp [calculate_put_return, pyDiv, h1, h2, Bind.bind, Except.bind]

/-- Inversion: whenever calculate_put_return returns a result, both
denominators were nonzero and the result is putOkRecord. -/
theorem calculate_put_return_inv (sp k prem : ℝ) (d cs : ℤ) (r : PutReturn)
    (hr : calculate_put_return sp k prem d cs = Except.ok r) :
    k * (cs : ℝ) ≠ 0 ∧ sp ≠ 0 ∧ r = putOkRecord sp k prem d cs := by
  by_cases h1 : k * (cs : ℝ) = 0
  · rw [calculate_put_return_err_capital sp k prem d cs h1] at hr
    exact absurd hr (by simp)
  by_cases h2 : sp = 0
  · rw [calculate_put_return_err_stock sp k prem d cs h2] at hr
    exact absurd hr (by simp)
  refine ⟨h1, h2, ?_⟩
  rw [calculate_put_return_ok sp k prem d cs h1 h2] at hr
  exact (Except.ok.inj hr).symm

/-- Success characterization of calculate_call_return: when neither
denominator is zero, it returns callOkRecord. -/
theorem calculate_call_return_ok (sp k prem cb : ℝ) (d cs : ℤ)
    (h1 : cb * (cs : ℝ) ≠ 0) (h2 : sp ≠ 0) :
    calculate_call_return sp k prem cb d cs = Except.ok (callOkRecord sp k prem cb d cs) := by
  by_cases hc : cb < k <;>
    simp [calculate_call_return, callOkRecord, pyDiv, h1, h2, hc,
      Bind.bind, Except.bind, Pure.pure, Except.pure]

/-- calculate_call_return raises ZeroDivisionError when the capital
denominator cost_basis * contract_size is zero. -/
theorem calculate_call_return_err_capital (sp k prem cb : ℝ) (d cs : ℤ)
    (h1 : cb * (cs : ℝ) = 0) :
    calculate_call_return sp k prem cb d cs = Except.error CalcError.zeroDivision := by
  simp [calculate_call_return, pyDiv, h1, Bind.bind, Except.bind]

/-- calculate_call_return raises ZeroDivisionError when stock_price is
zero (the upside-capture division). -/
theorem calculate_call_return_err_stock (sp k prem cb : ℝ) (d cs : ℤ)
    (h2 : sp = 0) :
    calculate_call_return sp k prem cb d cs = Except.error CalcError.zeroDivision := by
  by_cases h1 : cb * (cs : ℝ) = 0 <;>
    simp [calculate_call_return, pyDiv, h1, h2, Bind.bind, Except.bind]

/-- Inversion: whenever calculate_call_return returns a result, both
denominators were nonzero and the result is callOkRecord. -/
theorem calculate_call_return_inv (sp k prem cb : ℝ) (d cs : ℤ) (r : CallReturn)
    (hr : calculate_call_return sp k prem cb d cs = Except.ok r) :
    cb * (cs : ℝ) ≠ 0 ∧ sp ≠ 0 ∧ r = callOkRecord sp k prem cb d cs := by
  by_cases h1 : cb * (cs : ℝ) = 0
  · rw [calculate_call_return_err_capital sp k prem cb d cs h1] at hr
    exact absurd hr (by simp)
  by_cases h2 : sp = 0
  · rw [calculate_call_return_err_stock sp k prem cb d cs h2] at hr
    exact absurd hr (by simp)
  refine ⟨h1, h2, ?_⟩
  rw [calculate_call_return_ok sp k prem cb d cs h1 h2] at hr
  exact (Except.ok.inj hr).symm

/-- The record calculate_wheel_cycle_return produces on its success path
when assignment_assumed is true. -/
noncomputable def wheelTrueOkRecord (sp pk pp ck cp : ℝ) (pd cd : ℤ) : WheelCycleReturn where
  put_phase := putOkRecord sp pk pp pd 100
  call_phase := some (callOkRecord pk ck cp (pk - pp) cd 100)
  total_premium := pp * 100 + cp * 100
  total_return_pct := (pp * 100 + cp * 100) / (pk * 100) * 100
  annualized_cycle_return :=
    if 0 < pd + cd then
      ((1 + (pp * 100 + cp * 100) / (pk * 100)) ^ ((365 : ℝ) / ((pd : ℝ) + (cd : ℝ))) - 1) * 100
    else 0
  total_days := pd + cd
  capital_required := pk * 100

/-- The record calculate_wheel_cycle_return produces on its success path
when assignment_assumed is false: the put phase mirrored. -/
noncomputable def wheelFalseOkRecord (sp pk pp : ℝ) (pd : ℤ) : WheelCycleReturn where
  put_phase := putOkRecord sp pk pp pd 100
  call_phase := none
  total_premium := (putOkRecord sp pk pp pd 100).premium_received
  total_return_pct := (putOkRecord sp pk pp pd 100).return_pct
  annualized_cycle_return := (putOkRecord sp pk pp pd 100).annualized_return
  total_days := pd
  capital_required := (putOkRecord sp pk pp pd 100).capital_required

/-- Success characterization of the assignment-assumed branch of
calculate_wheel_cycle_return. -/
theorem calculate_wheel_cycle_return_true_ok (sp pk pp ck cp : ℝ) (pd cd : ℤ)
    (hpk : pk ≠ 0) (hsp : sp ≠ 0) (hcb : pk - pp ≠ 0) :
    calculate_wheel_cycle_return sp pk pp ck cp pd cd true =
      Except.ok (wheelTrueOkRecord sp pk pp ck cp pd cd) := by
  have h1 : pk * ((100 : ℤ) : ℝ) ≠ 0 := by simp [hpk]
  have h2 : (pk - pp) * ((100 : ℤ) : ℝ) ≠ 0 := by simp [hcb]
  have h3 : pk * (100 : ℝ) ≠ 0 := by simp [hpk]
  simp [calculate_wheel_cycle_return, calculate_put_return_ok sp pk pp pd 100 h1 hsp,
    calculate_call_return_ok pk ck cp (pk - pp) cd 100 h2 hpk, pyDiv, h3,
    wheelTrueOkRecord, putOkRecord, callOkRecord,
    Bind.bind, Except.bind, Pure.pure, Except.pure]

/-- Success characterization of the put-only branch of
calculate_wheel_cycle_return. -/
theorem calculate_wheel_cycle_return_false_ok (sp pk pp ck cp : ℝ) (pd cd : ℤ)
    (hpk : pk ≠ 0) (hsp : sp ≠ 0) :
    calculate_wheel_cycle_return sp pk pp ck cp pd cd false =
      Except.ok (wheelFalseOkRecord sp pk pp pd) := by
  have h1 : pk * ((100 : ℤ) : ℝ) ≠ 0 := by simp [hpk]
  simp [calculate_wheel_cycle_return, calculate_put_return_ok sp pk pp pd 100 h1 hsp,
    wheelFalseOkRecord, Bind.bind, Except.bind, Pure.pure, Except.pure]

/-- Inversion for the assignment-assumed branch: a returned result forces
all denominators nonzero and equals wheelTrueOkRecord. -/
theorem calculate_wheel_cycle_return_true_inv (sp pk pp ck cp : ℝ) (pd cd : ℤ)
    (r : WheelCycleReturn)
    (hr : calculate_wheel_cycle_return sp pk pp ck cp pd cd true = Except.ok r) :
    pk ≠ 0 ∧ sp ≠ 0 ∧ pk - pp ≠ 0 ∧ r = wheelTrueOkRecord sp pk pp ck cp pd cd := by
  by_cases hsp : sp = 0
  · simp [calculate_wheel_cycle_return,
      calculate_put_return_err_stock sp pk pp pd 100 hsp, Bind.bind, Except.bind] at hr
  by_cases hpk : pk = 0
  · simp [calculate_wheel_cycle_return,
      calculate_put_return_err_capital sp pk pp pd 100 (by simp [hpk]),
      Bind.bind, Except.bind] at hr
  by_cases hcb : pk - pp = 0
  · have h1 : pk * ((100 : ℤ) : ℝ) ≠ 0 := by simp [hpk]
    simp [calculate_wheel_cycle_return, calculate_put_return_ok sp pk pp pd 100 h1 hsp,
      calculate_call_return_err_capital pk ck cp (pk - pp) cd 100 (by simp [hcb]),
      Bind.bind, Except.bind] at hr
  refine ⟨hpk, hsp, hcb, ?_⟩
  rw [calculate_wheel_cycle_return_true_ok sp pk pp ck cp pd cd hpk hsp hcb] at hr
  exact (Except.ok.inj hr).symm

/-- Inversion for the put-only branch: a returned result forces the put
denominators nonzero and equals wheelFalseOkRecord. -/
theorem calculate_wheel_cycle_return_false_inv (sp pk pp ck cp : ℝ) (pd cd : ℤ)
    (r : WheelCycleReturn)
    (hr : calculate_wheel_cycle_return sp pk pp ck cp pd cd false = Except.ok r) :
    pk ≠ 0 ∧ sp ≠ 0 ∧ r = wheelFalseOkRecord sp pk pp pd := by
  by_cases hsp : sp = 0
  · simp [calculate_wheel_cycle_return,
      calculate_put_return_err_stock sp pk pp pd 100 hsp, Bind.bind, Except.bind] at hr
  by_cases hpk : pk = 0
  · simp [calculate_wheel_cycle_return,
      calculate_put_return_err_capital sp pk pp pd 100 (by simp [hpk]),
      Bind.bind, Except.bind] at hr
  refine ⟨hpk, hsp, ?_⟩
  rw [calculate_wheel_cycle_return_false_ok sp pk pp ck cp pd cd hpk hsp] at hr
  exact (Except.ok.inj hr).symm

/-- C1: for every call to calculate_put_return, and to
calculate_call_return (same formula on total_return_pct): when
daysToExpiration > 0 the annualized_return is
((1 + return_pct/100) ^ (365/daysToExpiration) - 1) * 100, and when
daysToExpiration <= 0 it is 0. -/
theorem C1_annualization_formula
    (sp k prem : ℝ) (d cs : ℤ) (r : PutReturn)
    (hr : calculate_put_return sp k prem d cs = Except.ok r)
    (sp2 k2 prem2 cb2 : ℝ) (d2 cs2 : ℤ) (c : CallReturn)
    (hc : calculate_call_return sp2 k2 prem2 cb2 d2 cs2 = Except.ok c) :
    ((0 < d → r.annualized_return =
        ((1 + r.return_pct / 100) ^ ((365 : ℝ) / (d : ℝ)) - 1) * 100) ∧
      (d ≤ 0 → r.annualized_return = 0)) ∧
    ((0 < d2 → c.annualized_return =
        ((1 + c.total_return_pct / 100) ^ ((365 : ℝ) / (d2 : ℝ)) - 1) * 100) ∧
      (d2 ≤ 0 → c.annualized_return = 0)) := by
  obtain ⟨h1, h2, rfl⟩ := calculate_put_return_inv sp k prem d cs r hr
  obtain ⟨g1, g2, rfl⟩ := calculate_call_return_inv sp2 k2 prem2 cb2 d2 cs2 c hc
  refine ⟨⟨fun hd => ?_, fun hd => ?_⟩, ⟨fun hd => ?_, fun hd => ?_⟩⟩
  · simp [putOkRecord, hd]
  · simp [putOkRecord, not_lt.mpr hd]
  · simp [callOkRecord, hd]
  · simp [callOkRecord, not_lt.mpr hd]

/-- C1 witness: the annualization facts at concrete inputs. -/
theorem C1_annualization_formula_witness :
    (putOkRecord 100 95 2 30 100).annualized_return =
      ((1 + (putOkRecord 100 95 2 30 100).return_pct / 100) ^ ((365 : ℝ) / ((30 : ℤ) : ℝ)) - 1)
        * 100 ∧
    (callOkRecord 100 105 1.5 98 0 100).annualized_return = 0 := by
  have hput : calculate_put_return 100 95 2 30 100 =
      Except.ok (putOkRecord 100 95 2 30 100) :=
    calculate_put_return_ok 100 95 2 30 100 (by norm_num) (by norm_num)
  have hcall : calculate_call_return 100 105 1.5 98 0 100 =
      Except.ok (callOkRecord 100 105 1.5 98 0 100) :=
    calculate_call_return_ok 100 105 1.5 98 0 100 (by norm_num) (by norm_num)
  have h := C1_annualization_formula 100 95 2 30 100 _ hput 100 105 1.5 98 0 100 _ hcall
  exact ⟨h.1.1 (by norm_num), h.2.2 (by norm_num)⟩

/-- C2 counterexample: at strikePrice = 0 (so capital_required = 0) the
code raises ZeroDivisionError instead of returning return_pct = 0, and at
stockPrice = 0 it raises instead of returning
downside_protection_pct = 0. -/
theorem C2_zero_guard_counterexample :
    calculate_put_return 100 0 2 30 100 = Except.error CalcError.zeroDivision ∧
    calculate_put_return 0 95 2 30 100 = Except.error CalcError.zeroDivision := by
  constructor
  · exact calculate_put_return_err_capital 100 0 2 30 100 (by norm_num)
  · exact calculate_put_return_err_stock 0 95 2 30 100 rfl

/-- C2 amended: calculate_put_return has no zero-denominator policy; with
capital_required = 0 (strikePrice = 0) or stockPrice = 0 it raises
ZeroDivisionError and returns no result. -/
theorem C2_amended_zero_division (sp k prem : ℝ) (d cs : ℤ)
    (h : k * (cs : ℝ) = 0 ∨ sp = 0) :
    calculate_put_return sp k prem d cs = Except.error CalcError.zeroDivision := by
  rcases h with h | h
  · exact calculate_put_return_err_capital sp k prem d cs h
  · exact calculate_put_return_err_stock sp k prem d cs h

/-- C2 witness: the amended statement applied at strikePrice = 0. -/
theorem C2_amended_zero_division_witness :
    ((0 : ℝ) * ((100 : ℤ) : ℝ) = 0 ∨ (50 : ℝ) = 0) ∧
    calculate_put_return 50 0 1 10 100 = Except.error CalcError.zeroDivision :=
  ⟨Or.inl (by norm_num),
    C2_amended_zero_division 50 0 1 10 100 (Or.inl (by norm_num))⟩

/-- C3 counterexample: with strikePrice = -100 the code does not fail
with InvalidInput; it returns a metrics record (with return_pct = -2). -/
theorem C3_negative_strike_counterexample :
    calculate_put_return 100 (-100) 2 30 100 =
      Except.ok (putOkRecord 100 (-100) 2 30 100) ∧
    (putOkRecord 100 (-100) 2 30 100).return_pct = -2 := by
  constructor
  · exact calculate_put_return_ok 100 (-100) 2 30 100 (by norm_num) (by norm_num)
  · simp [putOkRecord]
    norm_num

/-- C3 amended: calculate_put_return performs no input validation; with
strikePrice < 0 (contractSize > 0, stockPrice nonzero) it returns a
result whose capital_required is negative rather than failing with an
InvalidInput error. -/
theorem C3_amended_no_validation (sp k prem : ℝ) (d cs : ℤ)
    (hk : k < 0) (hcs : 0 < cs) (hsp : sp ≠ 0) :
    ∃ r : PutReturn, calculate_put_return sp k prem d cs = Except.ok r ∧
      r.capital_required < 0 := by
  have hcs' : (0 : ℝ) < (cs : ℝ) := by exact_mod_cast hcs
  have h1 : k * (cs : ℝ) ≠ 0 := ne_of_lt (mul_neg_of_neg_of_pos hk hcs')
  refine ⟨putOkRecord sp k prem d cs, calculate_put_return_ok sp k prem d cs h1 hsp, ?_⟩
  simpa [putOkRecord] using mul_neg_of_neg_of_pos hk hcs'

/-- C3 witness: the amended statement applied at strikePrice = -100. -/
theorem C3_amended_no_validation_witness :
    ((-100 : ℝ) < 0 ∧ (0 : ℤ) < 100 ∧ (100 : ℝ) ≠ 0) ∧
    ∃ r : PutReturn, calculate_put_return 100 (-100) 2 30 100 = Except.ok r ∧
      r.capital_required < 0 :=
  ⟨⟨by norm_num, by norm_num, by norm_num⟩,
    C3_amended_no_validation 100 (-100) 2 30 100 (by norm_num) (by norm_num) (by norm_num)⟩

/-- C4: with assignment_assumed = true, the wheel cycle computes its call
phase at synthetic stockPrice = putStrike and costBasis =
putStrike - putPremium, and its aggregates satisfy
total_premium = (putPremium + callPremium) * contractSize,
total_days = putDte + callDte, capital_required = putStrike * 100,
total_return_pct = total_premium / capital_required * 100, and
annualized_cycle_return is the compounding formula over total_days. -/
theorem C4_wheel_cycle_assignment (sp pk pp ck cp : ℝ) (pd cd : ℤ) (r : WheelCycleReturn)
    (hr : calculate_wheel_cycle_return sp pk pp ck cp pd cd true = Except.ok r) :
    (∃ c : CallReturn, r.call_phase = some c ∧
      calculate_call_return pk ck cp (pk - pp) cd 100 = Except.ok c) ∧
    r.total_premium = (pp + cp) * 100 ∧
    r.total_days = pd + cd ∧
    r.capital_required = pk * 100 ∧
    r.total_return_pct = r.total_premium / r.capital_required * 100 ∧
    (0 < pd + cd → r.annualized_cycle_return =
      ((1 + r.total_return_pct / 100) ^ ((365 : ℝ) / ((pd : ℝ) + (cd : ℝ))) - 1) * 100) ∧
    (pd + cd ≤ 0 → r.annualized_cycle_return = 0) := by
  obtain ⟨hpk, hsp, hcb, rfl⟩ :=
    calculate_wheel_cycle_return_true_inv sp pk pp ck cp pd cd r hr
  refine ⟨⟨callOkRecord pk ck cp (pk - pp) cd 100, by simp [wheelTrueOkRecord],
    calculate_call_return_ok pk ck cp (pk - pp) cd 100 (by simp [hcb]) hpk⟩,
    ?_, ?_, ?_, ?_, fun hd => ?_, fun hd => ?_⟩
  · simp [wheelTrueOkRecord]
    ring
  · simp [wheelTrueOkRecord]
  · simp [wheelTrueOkRecord]
  · simp [wheelTrueOkRecord]
  · simp [wheelTrueOkRecord, hd]
  · simp [wheelTrueOkRecord, not_lt.mpr hd]

/-- C4 witness: the specified concrete cycle with assignment assumed:
total_premium = 350, total_days = 60, capital_required = 9500. -/
theorem C4_wheel_cycle_assignment_witness :
    ∃ r : WheelCycleReturn,
      calculate_wheel_cycle_return 100 95 2 100 1.5 30 30 true = Except.ok r ∧
      r.total_premium = 350 ∧ r.total_days = 60 ∧ r.capital_required = 9500 := by
  have hok := calculate_wheel_cycle_return_true_ok 100 95 2 100 1.5 30 30
    (by norm_num) (by norm_num) (by norm_num)
  have h := C4_wheel_cycle_assignment 100 95 2 100 1.5 30 30 _ hok
  refine ⟨_, hok, ?_, ?_, ?_⟩
  · rw [h.2.1]
    norm_num
  · rw [h.2.2.1]
    norm_num
  · rw [h.2.2.2.1]
    norm_num

/-- C5: calculate_call_return floors the potential capital gain at zero
(max(0, strikePrice - costBasis) * contractSize) and reports
total_return = premium_received + potential_capital_gain. -/
theorem C5_call_gain_floor (sp k prem cb : ℝ) (d cs : ℤ) (r : CallReturn)
    (hr : calculate_call_return sp k prem cb d cs = Except.ok r) :
    r.premium_received = prem * (cs : ℝ) ∧
    r.capital_invested = cb * (cs : ℝ) ∧
    r.potential_capital_gain = max 0 (k - cb) * (cs : ℝ) ∧
    r.total_return = r.premium_received + r.potential_capital_gain := by
  obtain ⟨h1, h2, rfl⟩ := calculate_call_return_inv sp k prem cb d cs r hr
  refine ⟨rfl, rfl, ?_, ?_⟩
  · by_cases hc : cb < k
    · simp [callOkRecord, hc, max_eq_right (sub_nonneg.mpr hc.le)]
    · simp [callOkRecord, hc, max_eq_left (sub_nonpos.mpr (not_lt.mp hc))]
  · by_cases hc : cb < k <;> simp [callOkRecord, hc]

/-- C5 witness: the specified concrete covered call: premium_received =
150, capital_invested = 9800, potential_capital_gain = 700,
total_return = 850. -/
theorem C5_call_gain_floor_witness :
    ∃ r : CallReturn, calculate_call_return 100 105 1.5 98 30 100 = Except.ok r ∧
      r.premium_received = 150 ∧ r.capital_invested = 9800 ∧
      r.potential_capital_gain = 700 ∧ r.total_return = 850 := by
  have hok := calculate_call_return_ok 100 105 1.5 98 30 100 (by norm_num) (by norm_num)
  have h := C5_call_gain_floor 100 105 1.5 98 30 100 _ hok
  have hmax : max (0 : ℝ) (105 - 98) = 7 := by
    rw [max_eq_right] <;> norm_num
  refine ⟨_, hok, ?_, ?_, ?_, ?_⟩
  · rw [h.1]
    norm_num
  · rw [h.2.1]
    norm_num
  · rw [h.2.2.1, hmax]
    norm_num
  · rw [h.2.2.2, h.1, h.2.2.1, hmax]
    norm_num

/-- C6: with daysToExpiration <= 0, calculate_probability_of_profit is
exactly 1 when stockPrice >= breakevenPrice and exactly 0 otherwise, for
any cumulative-distribution function. -/
theorem C6_pop_expiry_boundary (normCdf : ℝ → ℝ) (sp bp iv : ℝ) (d : ℤ)
    (hd : d ≤ 0) :
    (bp ≤ sp → calculate_probability_of_profit normCdf sp bp iv d = 1) ∧
    (sp < bp → calculate_probability_of_profit normCdf sp bp iv d = 0) := by
  constructor <;> intro h
  · simp [calculate_probability_of_profit, hd, h]
  · simp [calculate_probability_of_profit, hd, not_le.mpr h]

/-- C6 witness: the boundary cases at daysToExpiration = 0. -/
theorem C6_pop_expiry_boundary_witness :
    calculate_probability_of_profit (fun z => z) 100 95 0.3 0 = 1 ∧
    calculate_probability_of_profit (fun z => z) 90 95 0.3 0 = 0 :=
  ⟨(C6_pop_expiry_boundary (fun z => z) 100 95 0.3 0 le_rfl).1 (by norm_num),
   (C6_pop_expiry_boundary (fun z => z) 90 95 0.3 0 le_rfl).2 (by norm_num)⟩

/-- C7 counterexample: with a negative strike (strikePrice = -100, which
the code accepts), increasing the premium from 1 to 2 strictly decreases
return_pct, so premium monotonicity fails as stated. -/
theorem C7_monotonicity_counterexample :
    (1 : ℝ) < 2 ∧
    calculate_put_return 100 (-100) 1 30 100 =
      Except.ok (putOkRecord 100 (-100) 1 30 100) ∧
    calculate_put_return 100 (-100) 2 30 100 =
      Except.ok (putOkRecord 100 (-100) 2 30 100) ∧
    (putOkRecord 100 (-100) 2 30 100).return_pct <
      (putOkRecord 100 (-100) 1 30 100).return_pct := by
  refine ⟨by norm_num,
    calculate_put_return_ok 100 (-100) 1 30 100 (by norm_num) (by norm_num),
    calculate_put_return_ok 100 (-100) 2 30 100 (by norm_num) (by norm_num), ?_⟩
  simp [putOkRecord]
  norm_num

/-- C7 amended: with a positive strike, positive contract size, positive
days to expiration and nonnegative premiums, increasing the premium
strictly increases both return_pct and annualized_return of
calculate_put_return. -/
theorem C7_amended_premium_monotonicity (sp k p1 p2 : ℝ) (d cs : ℤ)
    (hk : 0 < k) (hcs : 0 < cs) (hd : 0 < d) (hp1 : 0 ≤ p1) (hp : p1 < p2)
    (r1 r2 : PutReturn)
    (h1 : calculate_put_return sp k p1 d cs = Except.ok r1)
    (h2 : calculate_put_return sp k p2 d cs = Except.ok r2) :
    r1.return_pct < r2.return_pct ∧ r1.annualized_return < r2.annualized_return := by
  obtain ⟨hk1, hs1, rfl⟩ := calculate_put_return_inv sp k p1 d cs r1 h1
  obtain ⟨hk2, hs2, rfl⟩ := calculate_put_return_inv sp k p2 d cs r2 h2
  have hcs' : (0 : ℝ) < (cs : ℝ) := by exact_mod_cast hcs
  have hkcs : (0 : ℝ) < k * (cs : ℝ) := mul_pos hk hcs'
  have hd' : (0 : ℝ) < (d : ℝ) := by exact_mod_cast hd
  have hq : p1 * (cs : ℝ) / (k * (cs : ℝ)) < p2 * (cs : ℝ) / (k * (cs : ℝ)) :=
    (div_lt_div_iff_of_pos_right hkcs).mpr (mul_lt_mul_of_pos_right hp hcs')
  have hq1 : 0 ≤ p1 * (cs : ℝ) / (k * (cs : ℝ)) :=
    div_nonneg (mul_nonneg hp1 hcs'.le) hkcs.le
  constructor
  · simp only [putOkRecord]
    linarith
  · simp only [putOkRecord, if_pos hd]
    have hpow := Real.rpow_lt_rpow (x := 1 + p1 * (cs : ℝ) / (k * (cs : ℝ)))
      (y := 1 + p2 * (cs : ℝ) / (k * (cs : ℝ))) (by linarith) (by linarith)
      (div_pos (by norm_num : (0 : ℝ) < 365) hd')
    linarith

/-- C7 witness: the amended monotonicity at strike 100, premiums 1 < 2,
30 days. -/
theorem C7_amended_premium_monotonicity_witness :
    ∃ r1 r2 : PutReturn,
      calculate_put_return 100 100 1 30 100 = Except.ok r1 ∧
      calculate_put_return 100 100 2 30 100 = Except.ok r2 ∧
      r1.return_pct < r2.return_pct ∧ r1.annualized_return < r2.annualized_return := by
  have h1 := calculate_put_return_ok 100 100 1 30 100 (by norm_num) (by norm_num)
  have h2 := calculate_put_return_ok 100 100 2 30 100 (by norm_num) (by norm_num)
  exact ⟨_, _, h1, h2, C7_amended_premium_monotonicity 100 100 1 2 30 100
    (by norm_num) (by norm_num) (by norm_num) (by norm_num) (by norm_num) _ _ h1 h2⟩

/-- C8: with assignment_assumed = false the wheel cycle mirrors the put
phase unchanged: total_premium, total_return_pct,
annualized_cycle_return, total_days and capital_required all come from
the put-phase result, and the call phase is None. -/
theorem C8_wheel_put_only (sp pk pp ck cp : ℝ) (pd cd : ℤ) (r : WheelCycleReturn)
    (hr : calculate_wheel_cycle_return sp pk pp ck cp pd cd false = Except.ok r) :
    ∃ p : PutReturn, calculate_put_return sp pk pp pd 100 = Except.ok p ∧
      r.put_phase = p ∧ r.call_phase = none ∧
      r.total_premium = p.premium_received ∧
      r.total_return_pct = p.return_pct ∧
      r.annualized_cycle_return = p.annualized_return ∧
      r.total_days = pd ∧
      r.capital_required = p.capital_required := by
  obtain ⟨hpk, hsp, rfl⟩ :=
    calculate_wheel_cycle_return_false_inv sp pk pp ck cp pd cd r hr
  refine ⟨putOkRecord sp pk pp pd 100,
    calculate_put_return_ok sp pk pp pd 100 (by simp [hpk]) hsp,
    ?_, ?_, ?_, ?_, ?_, ?_, ?_⟩ <;> rfl

/-- C8 witness: the put-only cycle at the concrete example input. -/
theorem C8_wheel_put_only_witness :
    ∃ r : WheelCycleReturn,
      calculate_wheel_cycle_return 100 95 2 100 1.5 30 30 false = Except.ok r ∧
      ∃ p : PutReturn, calculate_put_return 100 95 2 30 100 = Except.ok p ∧
        r.total_premium = p.premium_received ∧ r.total_days = 30 := by
  have hok := calculate_wheel_cycle_return_false_ok 100 95 2 100 1.5 30 30
    (by norm_num) (by norm_num)
  obtain ⟨p, hp, _, _, htp, _, _, htd, _⟩ :=
    C8_wheel_put_only 100 95 2 100 1.5 30 30 _ hok
  exact ⟨_, hok, p, hp, htp, htd⟩

/-- C9: with a positive cost basis, nonnegative premium and positive
contract size, calculate_call_return reports total_return_pct at least
premium_return_pct, with equality exactly when strikePrice <= costBasis. -/
theorem C9_total_ge_premium_pct (sp k prem cb : ℝ) (d cs : ℤ)
    (hcb : 0 < cb) (_hprem : 0 ≤ prem) (hcs : 0 < cs) (r : CallReturn)
    (hr : calculate_call_return sp k prem cb d cs = Except.ok r) :
    r.premium_return_pct ≤ r.total_return_pct ∧
    (r.total_return_pct = r.premium_return_pct ↔ k ≤ cb) := by
  obtain ⟨h1, h2, rfl⟩ := calculate_call_return_inv sp k prem cb d cs r hr
  have hcs' : (0 : ℝ) < (cs : ℝ) := by exact_mod_cast hcs
  have hcap : (0 : ℝ) < cb * (cs : ℝ) := mul_pos hcb hcs'
  by_cases hc : cb < k
  · have hg : (0 : ℝ) < (k - cb) * (cs : ℝ) := mul_pos (sub_pos.mpr hc) hcs'
    have hlt : prem * (cs : ℝ) / (cb * (cs : ℝ)) * 100 <
        (prem * (cs : ℝ) + (k - cb) * (cs : ℝ)) / (cb * (cs : ℝ)) * 100 := by
      gcongr
      linarith
    simp only [callOkRecord, if_pos hc]
    exact ⟨hlt.le, ⟨fun heq => absurd heq (ne_of_gt hlt), fun hle => absurd hc (not_lt.mpr hle)⟩⟩
  · simp only [callOkRecord, if_neg hc]
    exact ⟨le_refl _, iff_of_true trivial (not_lt.mp hc)⟩

/-- C9 witness: the concrete covered call with strike above basis:
strict improvement and the equality criterion. -/
theorem C9_total_ge_premium_pct_witness :
    ∃ r : CallReturn, calculate_call_return 100 105 1.5 98 30 100 = Except.ok r ∧
      r.premium_return_pct ≤ r.total_return_pct ∧
      (r.total_return_pct = r.premium_return_pct ↔ (105 : ℝ) ≤ 98) := by
  have hok := calculate_call_return_ok 100 105 1.5 98 30 100 (by norm_num) (by norm_num)
  exact ⟨_, hok, C9_total_ge_premium_pct 100 105 1.5 98 30 100
    (by norm_num) (by norm_num) (by norm_num) _ hok⟩

/-- C10: in the assignment-assumed wheel cycle, the aggregate fields
total_premium, total_return_pct, annualized_cycle_return, total_days and
capital_required do not depend on stock_price or call_strike: two
successful calls differing only in those inputs agree on all five. -/
theorem C10_aggregates_independent (sp1 sp2 pk pp ck1 ck2 cp : ℝ) (pd cd : ℤ)
    (r1 r2 : WheelCycleReturn)
    (h1 : calculate_wheel_cycle_return sp1 pk pp ck1 cp pd cd true = Except.ok r1)
    (h2 : calculate_wheel_cycle_return sp2 pk pp ck2 cp pd cd true = Except.ok r2) :
    r1.total_premium = r2.total_premium ∧
    r1.total_return_pct = r2.total_return_pct ∧
    r1.annualized_cycle_return = r2.annualized_cycle_return ∧
    r1.total_days = r2.total_days ∧
    r1.capital_required = r2.capital_required := by
  obtain ⟨_, _, _, rfl⟩ :=
    calculate_wheel_cycle_return_true_inv sp1 pk pp ck1 cp pd cd r1 h1
  obtain ⟨_, _, _, rfl⟩ :=
    calculate_wheel_cycle_return_true_inv sp2 pk pp ck2 cp pd cd r2 h2
  exact ⟨rfl, rfl, rfl, rfl, rfl⟩

/-- C10 witness: two cycles differing only in stock price (100 vs 111)
and call strike (100 vs 90) agree on all five aggregates. -/
theorem C10_aggregates_independent_witness :
    ∃ r1 r2 : WheelCycleReturn,
      calculate_wheel_cycle_return 100 95 2 100 1.5 30 30 true = Except.ok r1 ∧
      calculate_wheel_cycle_return 111 95 2 90 1.5 30 30 true = Except.ok r2 ∧
      r1.total_premium = r2.total_premium ∧
      r1.total_return_pct = r2.total_return_pct ∧
      r1.annualized_cycle_return = r2.annualized_cycle_return ∧
      r1.total_days = r2.total_days ∧
      r1.capital_required = r2.capital_required := by
  have h1 := calculate_wheel_cycle_return_true_ok 100 95 2 100 1.5 30 30
    (by norm_num) (by norm_num) (by norm_num)
  have h2 := calculate_wheel_cycle_return_true_ok 111 95 2 90 1.5 30 30
    (by norm_num) (by norm_num) (by norm_num)
  exact ⟨_, _, h1, h2, C10_aggregates_independent 100 111 95 2 100 90 1.5 30 30
    _ _ h1 h2⟩

end WheelApp
